import Mathlib

set_option maxRecDepth 40000

/-!
Verification development for the Visitor Registry of the agentic_graysky
repository.  Python strings are modelled as `List Char` (a Python `str` is a
sequence of Unicode code points, and `len` is the number of code points).
Timestamps (`datetime`) are modelled as `Int` seconds, so `timedelta(hours=1)`
is `3600` and `datetime` comparison is `Int` comparison.  Generated UUIDs are
modelled by a caller-supplied fresh identifier of type `Nat`.  Python `dict`s
with string keys are modelled as insertion-ordered association lists.
-/

/-- Python strings, modelled as lists of characters. -/
abbrev Str := List Char

/-- Characters used below that are awkward as literals: the double quote,
the single quote and the backslash. -/
def dquoteChar : Char := Char.ofNat 34

def squoteChar : Char := Char.ofNat 39

def backslashChar : Char := Char.ofNat 92

/-- Escaping of one character as performed by Python's `html.escape` with its
default `quote=True`: ampersand, angle brackets, double quote and single quote
are replaced by entities, every other character is kept.  `html.escape`
performs successive `str.replace` calls starting with the ampersand, which is
equivalent to this single character-by-character pass. -/
def escapeChar (c : Char) : Str :=
  if c = '&' then "&amp;".toList
  else if c = '<' then "&lt;".toList
  else if c = '>' then "&gt;".toList
  else if c = dquoteChar then "&quot;".toList
  else if c = squoteChar then "&#x27;".toList
  else [c]

/-- Python `html.escape(text)` (src/services/visitor_service.py line 40). -/
def htmlEscape (s : Str) : Str := (s.map escapeChar).flatten

/-- Field length ceiling `self.max_field_length = 500`
(src/services/visitor_service.py line 21). -/
def maxFieldLength : Nat := 500

/-- Name length ceiling `self.max_name_length = 100`
(src/services/visitor_service.py line 20). -/
def maxNameLength : Nat := 100

/-- Capacity ceiling `self.max_visitors = 1000`
(src/services/visitor_service.py line 22). -/
def maxVisitors : Nat := 1000

/-- The sanitizer `VisitorService._sanitize_input`
(src/services/visitor_service.py lines 34-43): empty (falsy) input yields the
empty string, otherwise the input is HTML-escaped and then truncated to
`max_field_length` (500) characters — note the truncation bound is
`max_field_length`, not `max_name_length`. -/
def sanitizeInput (text : Str) : Str :=
  if text.isEmpty then []
  else (htmlEscape text).take maxFieldLength

/-- ASCII whitespace recognised by Python's `str.strip` (the model restricts
to the ASCII whitespace characters tab, newline, vertical tab, form feed,
carriage return and space). -/
def pyIsSpace (c : Char) : Bool :=
  c.toNat = 9 || c.toNat = 10 || c.toNat = 11 || c.toNat = 12 || c.toNat = 13 || c.toNat = 32

/-- Python `str.strip()` with no argument: remove leading and trailing
whitespace. -/
def pyStrip (s : Str) : Str :=
  ((s.dropWhile pyIsSpace).reverse.dropWhile pyIsSpace).reverse

/-- Truthiness of an optional Python string: `None` and the empty string are
falsy, every other string is truthy. -/
def optTruthy (o : Option Str) : Bool :=
  match o with
  | none => false
  | some s => !s.isEmpty

/-- Python `len` of an optional string (evaluated only under `optTruthy` in
all the modelled code). -/
def optLen (o : Option Str) : Nat :=
  match o with
  | none => 0
  | some s => s.length

/-- Serialized length of one character under CPython's `json.dumps` with its
default `ensure_ascii=True`: the double quote, backslash and the short escapes
for backspace, tab, newline, form feed and carriage return cost two
characters, printable ASCII costs one, every other character in the basic
multilingual plane costs six (`\uXXXX`), and astral characters cost twelve (a
surrogate pair). -/
def jsonCharLen (c : Char) : Nat :=
  if c = dquoteChar ∨ c = backslashChar then 2
  else if c.toNat = 8 ∨ c.toNat = 9 ∨ c.toNat = 10 ∨ c.toNat = 12 ∨ c.toNat = 13 then 2
  else if 32 ≤ c.toNat ∧ c.toNat ≤ 126 then 1
  else if c.toNat < 65536 then 6
  else 12

/-- Length of the `json.dumps` serialization of a string: two quotes plus the
per-character costs. -/
def jsonStrLen (s : Str) : Nat := 2 + (s.map jsonCharLen).sum

/-- Length of `json.dumps(answers)` for a string-valued dict with CPython's
default separators: braces, per entry the two serialized strings and a
colon-space, and a comma-space between entries. -/
def jsonDumpsLength (ans : List (Str × Str)) : Nat :=
  if ans.isEmpty then 2
  else 2 + ((ans.map (fun kv => jsonStrLen kv.1 + 2 + jsonStrLen kv.2)).sum) + 2 * (ans.length - 1)

/-- Length of one character in Python's `repr` of a string (the model is
exact for printable characters: the single quote and backslash cost two, the
tab, newline and carriage return short escapes cost two, other ASCII control
characters cost four as `\xXX`, everything else costs one). -/
def reprCharLen (c : Char) : Nat :=
  if c = squoteChar ∨ c = backslashChar then 2
  else if c.toNat = 9 ∨ c.toNat = 10 ∨ c.toNat = 13 then 2
  else if c.toNat < 32 ∨ c.toNat = 127 then 4
  else 1

/-- Length of `repr` of a string: two quotes plus the per-character costs. -/
def reprStrLen (s : Str) : Nat := 2 + (s.map reprCharLen).sum

/-- Length of `str(answers)` for a string-valued dict: braces, per entry the
two reprs and a colon-space, and a comma-space between entries
(`str` of a dict is its `repr`). -/
def strDictLength (ans : List (Str × Str)) : Nat :=
  if ans.isEmpty then 2
  else 2 + ((ans.map (fun kv => reprStrLen kv.1 + 2 + reprStrLen kv.2)).sum) + 2 * (ans.length - 1)

/-- The `VisitorCreate` request model (src/models/visitor.py lines 5-12):
fields `name`, optional `agent_type`, optional `purpose` and optional
`answers`.  An absent or empty answers dict is the empty list (both are falsy
in every use in the code).  The model also carries `visit_count` with default
1, which no caller ever sets; it plays no role in `add_visitor` and is
omitted here. -/
structure VisitorCreate where
  name : Str
  agent_type : Option Str
  purpose : Option Str
  answers : List (Str × Str)
deriving DecidableEq

/-- Error messages built by `VisitorService._validate_visitor`. -/
def nameRequiredMsg : Str := "Name is required".toList

def nameTooLongMsg : Str := "Name must be less than 100 characters".toList

def agentTooLongMsg : Str := "Agent type must be less than 500 characters".toList

def purposeTooLongMsg : Str := "Purpose must be less than 500 characters".toList

def answersTooBigMsg : Str := "Answers exceeded maximum allowed size".toList

/-- The `errors` dict of `VisitorService._validate_visitor`, with one
optional message per field that can be flagged. -/
structure ValidationErrors where
  name_err : Option Str
  agent_err : Option Str
  purpose_err : Option Str
  answers_err : Option Str
deriving DecidableEq

/-- Empty validation error dict. -/
def noErrors : ValidationErrors := ⟨none, none, none, none⟩

/-- The `name` entry of the errors dict (src/services/visitor_service.py
lines 50-55): first flagged as required when the name is falsy or
whitespace-only, then overwritten by the too-long message when the name is
truthy and longer than 100 characters. -/
def nameErrorOf (v : VisitorCreate) : Option Str :=
  let e1 : Option Str :=
    if v.name.isEmpty || (pyStrip v.name).isEmpty then some nameRequiredMsg else none
  if !v.name.isEmpty && decide (maxNameLength < v.name.length) then some nameTooLongMsg else e1

/-- The `agent_type` entry of the errors dict (lines 57-58). -/
def agentErrorOf (v : VisitorCreate) : Option Str :=
  if optTruthy v.agent_type && decide (maxFieldLength < optLen v.agent_type) then
    some agentTooLongMsg
  else none

/-- The `purpose` entry of the errors dict (lines 60-61). -/
def purposeErrorOf (v : VisitorCreate) : Option Str :=
  if optTruthy v.purpose && decide (maxFieldLength < optLen v.purpose) then
    some purposeTooLongMsg
  else none

/-- The `answers` entry of the errors dict (lines 64-68): for a present,
non-empty answers dict (always a dict in this model, so the `isinstance`
branch never fires), flag when the `json.dumps` serialization exceeds 2000
characters. -/
def answersErrorOf (v : VisitorCreate) : Option Str :=
  if !v.answers.isEmpty && decide (2000 < jsonDumpsLength v.answers) then
    some answersTooBigMsg
  else none

/-- Validation method `VisitorService._validate_visitor` (src/services/visitor_service.py
lines 45-70). -/
def validateVisitor (v : VisitorCreate) : ValidationErrors :=
  { name_err := nameErrorOf v
    agent_err := agentErrorOf v
    purpose_err := purposeErrorOf v
    answers_err := answersErrorOf v }

/-- Sanitization of the optional `agent_type`/`purpose` fields
(src/services/visitor_service.py lines 134-135):
`self._sanitize_input(x) if x else None`. -/
def sanitizeOpt (o : Option Str) : Option Str :=
  match o with
  | none => none
  | some s => if s.isEmpty then none else some (sanitizeInput s)

/-- Python dict assignment `d[k] = v` on an insertion-ordered association
list: an existing key keeps its position and gets the new value, a new key is
appended. -/
def dictInsert (m : List (Str × Str)) (k v : Str) : List (Str × Str) :=
  if m.any (fun p => p.1 == k) then m.map (fun p => if p.1 == k then (k, v) else p)
  else m ++ [(k, v)]

/-- The answers sanitization loop of `VisitorService.add_visitor`
(src/services/visitor_service.py lines 138-146): each key is sanitized and
additionally truncated to 50 characters, each (string) value is sanitized,
and the pairs are inserted into a fresh dict. -/
def sanitizeAnswers (ans : List (Str × Str)) : List (Str × Str) :=
  ans.foldl (fun acc kv => dictInsert acc ((sanitizeInput kv.1).take 50) (sanitizeInput kv.2)) []

/-- A record of the JSON visitor store, mirroring the dict built in
`VisitorService.add_visitor` (src/services/visitor_service.py lines 177-185):
id, name, agent_type, purpose, visit_time, visit_count, answers.  The
returned `Visitor` model carries exactly these fields, so the same structure
is used for the return value. -/
structure FileRecord where
  id : Nat
  name : Str
  agent_type : Option Str
  purpose : Option Str
  visit_time : Int
  visit_count : Nat
  answers : List (Str × Str)
deriving DecidableEq

/-- Errors raised by `VisitorService.add_visitor`: a `ValueError` carrying the
joined validation messages (modelled by the errors dict itself), or the
rate-limit `ValueError`. -/
inductive RegisterError where
  | validation (e : ValidationErrors)
  | rateLimit
deriving DecidableEq

/-- Stable insertion of an element after every already-placed element that
compares less-or-equal to it. -/
def stableInsert (le : α → α → Bool) (a : α) : List α → List α
  | [] => [a]
  | b :: bs => if le b a then b :: stableInsert le a bs else a :: b :: bs

/-- Stable sort by repeated insertion.  Python's `list.sort` is a stable sort
and the output of a stable sort is uniquely determined by the ordering, so
this computes exactly what `list.sort` computes for a total preorder. -/
def stableSort (le : α → α → Bool) (l : List α) : List α :=
  l.foldl (fun acc a => stableInsert le a acc) []

/-- Ordering used by `data.sort(key=visit_time, reverse=True)`: `a` may be
placed before `b` when `b`'s visit time is not larger than `a`'s
(`reverse=True` keeps the original order of records with equal keys). -/
def fileTimeDescLe (a b : FileRecord) : Bool := decide (b.visit_time ≤ a.visit_time)

/-- Saving method `VisitorService._save_data` without the I/O (src/services/visitor_service.py
lines 83-99): when the record list exceeds `max_visitors` it is stably sorted
by visit time, most recent first, and only the first `max_visitors` records
are kept. -/
def fileSaveData (data : List FileRecord) : List FileRecord :=
  if maxVisitors < data.length then (stableSort fileTimeDescLe data).take maxVisitors
  else data

/-- The rate-limit query of `VisitorService.add_visitor`
(src/services/visitor_service.py lines 152-156): some stored record has
exactly the sanitized name — the agent type is not consulted — and a visit
time strictly within the trailing hour. -/
def rateLimitHit (now : Int) (data : List FileRecord) (nm : Str) : Bool :=
  data.any (fun r => r.name == nm && decide (now - 3600 < r.visit_time))

/-- The identity lookup of `VisitorService.add_visitor`
(src/services/visitor_service.py lines 162-167): `next` over the stored list
returns the first record whose name and agent type both match. -/
def findExistingFile (data : List FileRecord) (nm : Str) (at? : Option Str) : Option FileRecord :=
  data.find? (fun r => r.name == nm && r.agent_type == at?)

/-- The visit count chosen by `VisitorService.add_visitor`
(src/services/visitor_service.py lines 169-172): one more than the first
stored record with the same identity, or 1 when there is none. -/
def fileVisitCount (data : List FileRecord) (nm : Str) (at? : Option Str) : Nat :=
  match findExistingFile data nm at? with
  | some r => r.visit_count + 1
  | none => 1

/-- The `new_visitor` dict assembled by `VisitorService.add_visitor`
(src/services/visitor_service.py lines 174-185): a freshly generated id —
even for a repeat identity — the sanitized fields, the current time and the
resolved visit count. -/
def fileNewRecord (now : Int) (freshId : Nat) (data : List FileRecord) (v : VisitorCreate) :
    FileRecord :=
  { id := freshId, name := sanitizeInput v.name, agent_type := sanitizeOpt v.agent_type,
    purpose := sanitizeOpt v.purpose, visit_time := now,
    visit_count := fileVisitCount data (sanitizeInput v.name) (sanitizeOpt v.agent_type),
    answers := sanitizeAnswers v.answers }

/-- Operation `VisitorService.add_visitor` (src/services/visitor_service.py
lines 124-198).  `now` stands for `datetime.now()` and `freshId` for the
generated `uuid.uuid4()`.  Validation, then sanitization, then the
rate-limit check, then identity resolution; finally the new record is
appended to the loaded data and saved.  On success the function returns the
new record — whose fields are exactly those of the returned `Visitor` —
together with the saved store; the `ValueError` raises happen before any
write, so an error leaves the store untouched. -/
def fileAddVisitor (now : Int) (freshId : Nat) (data : List FileRecord) (v : VisitorCreate) :
    Except RegisterError (FileRecord × List FileRecord) :=
  if validateVisitor v ≠ noErrors then .error (.validation (validateVisitor v))
  else if rateLimitHit now data (sanitizeInput v.name) then .error .rateLimit
  else .ok (fileNewRecord now freshId data v,
            fileSaveData (data ++ [fileNewRecord now freshId data v]))

/-- Default of the `visit_count` field of the pydantic `VisitorBase` model
(src/models/visitor.py line 9): `visit_count: Optional[int] = 1`. -/
def visitorBaseVisitCountDefault : Nat := 1

/-- A returned visitor as structured data: the fields of the `Visitor`
response model, also the shape of the dict returned by the relational
`add_visitor`. -/
structure VisitorOut where
  id : Nat
  name : Str
  agent_type : Option Str
  purpose : Option Str
  visit_time : Int
  visit_count : Nat
  answers : List (Str × Str)
deriving DecidableEq

/-- Ordering used by `visitors.sort(key=visit_time, reverse=True)` in
`get_visitors`. -/
def outTimeDescLe (a b : VisitorOut) : Bool := decide (b.visit_time ≤ a.visit_time)

/-- Operation `VisitorService.get_visitors` (src/services/visitor_service.py
lines 101-122): the limit is clamped into `[1, 100]`, every stored record is
turned into a `Visitor` — the constructor call passes id, name, agent_type,
purpose, visit_time and answers but not `visit_count`, so that field takes
the model default 1 — and the list is sorted by visit time descending and
truncated to the limit. -/
def fileGetVisitors (limit : Int) (data : List FileRecord) : List VisitorOut :=
  let lim : Int := min (max 1 limit) 100
  let visitors : List VisitorOut := data.map (fun r =>
    { id := r.id, name := r.name, agent_type := r.agent_type, purpose := r.purpose,
      visit_time := r.visit_time, visit_count := visitorBaseVisitCountDefault,
      answers := r.answers })
  (stableSort outTimeDescLe visitors).take lim.toNat
deriving instance DecidableEq for Except

/-- A row of the `visitors` table (src/database/schema.py): id, name,
agent_type, purpose, visit_time, visit_count. -/
structure DbRow where
  id : Nat
  name : Str
  agent_type : Option Str
  purpose : Option Str
  visit_time : Int
  visit_count : Nat
deriving DecidableEq

/-- The relational store: the `visitors` table in insertion order and the
`answers` table as (visitor_id, key, value) rows in insertion order. -/
structure DbState where
  visitors : List DbRow
  answers : List (Nat × Str × Str)
deriving DecidableEq

/-- Errors surfaced by the relational `add_visitor`: a `ValueError` for a
failed length validation, or a re-raised `sqlite3.Error` from a storage
operation. -/
inductive DbError where
  | validation (msg : Str)
  | storage
deriving DecidableEq

/-- Validation messages of the relational `add_visitor`
(src/database/visitor_db.py lines 163-172). -/
def dbNameMsg : Str := "Name is required and must be 100 characters or less".toList

def dbAgentMsg : Str := "Agent type must be 500 characters or less".toList

def dbPurposeMsg : Str := "Purpose must be 500 characters or less".toList

/-- Lookup `get_visitor_by_name_and_agent_type` (src/database/visitor_db.py
lines 79-118): a truthy agent type is matched by SQL equality, while a falsy
one — `None`, but also the empty string — selects rows whose `agent_type` IS
NULL.  The first matching row in table order is returned. -/
def dbFindByNameAgent (st : DbState) (nm : Str) (at? : Option Str) : Option DbRow :=
  if optTruthy at? then st.visitors.find? (fun r => r.name == nm && r.agent_type == at?)
  else st.visitors.find? (fun r => r.name == nm && r.agent_type.isNone)

/-- Per-answer handling inside `add_visitor_answers` (src/database/visitor_db.py
lines 235-247): a falsy or over-50-character key is skipped with a warning,
and the (string) value is truncated to 500 characters. -/
def processAnswer (kv : Str × Str) : Option (Str × Str) :=
  if kv.1.isEmpty || decide (50 < kv.1.length) then none
  else some (kv.1, kv.2.take 500)

/-- Function `add_visitor_answers` (src/database/visitor_db.py lines 215-251) with an
explicit failure flag for the insert transaction.  An empty answers dict
returns immediately.  Otherwise the DELETE of the visitor's existing answer
rows runs — and commits — as its own `execute_update` transaction, and the
inserts then run in a second transaction: if that transaction fails, its
inserts are rolled back and the `sqlite3.Error` is re-raised, but the
already-committed DELETE is not undone.  The function returns the outcome
together with the resulting store. -/
def addVisitorAnswersF (failInsert : Bool) (st : DbState) (vid : Nat)
    (answers : List (Str × Str)) : Except Unit Unit × DbState :=
  if answers.isEmpty then (.ok (), st)
  else
    let cleared : DbState := { st with answers := st.answers.filter (fun a => !(a.1 == vid)) }
    if failInsert then (.error (), cleared)
    else (.ok (),
      { cleared with answers :=
          cleared.answers ++ (answers.filterMap processAnswer).map (fun kv => (vid, kv.1, kv.2)) })

/-- The UPDATE statement of the relational `add_visitor`
(src/database/visitor_db.py lines 186-191): every row whose id matches gets
the new visit time and visit count; name, agent type and purpose are left as
stored. -/
def dbUpdateRow (now : Int) (vid : Nat) (vc : Nat) (l : List DbRow) : List DbRow :=
  l.map (fun q => if q.id = vid then { q with visit_time := now, visit_count := vc } else q)

/-- The relational `add_visitor` (src/database/visitor_db.py lines 149-213)
with an explicit failure flag for the answers insert transaction.  `now`
stands for `datetime.now()` and `freshId` for `uuid.uuid4()`.  Validation
failures leave the store untouched.  Otherwise the visitor row is updated in
place (existing identity) or inserted (fresh identity) by an `execute_update`
call that commits on its own; the answers, if any, are then written by
`add_visitor_answers`.  The returned dict echoes the submitted name, agent
type, purpose and raw answers together with the resolved id, time and count.
Every outcome is paired with the resulting store, because the visitor-row
write is durable even when the answers write then fails. -/
def dbAddVisitorF (failInsert : Bool) (now : Int) (freshId : Nat) (st : DbState)
    (name : Str) (agent_type purpose : Option Str) (answers : List (Str × Str)) :
    Except DbError VisitorOut × DbState :=
  if name.isEmpty || decide (100 < name.length) then (.error (.validation dbNameMsg), st)
  else if optTruthy agent_type && decide (500 < optLen agent_type) then
    (.error (.validation dbAgentMsg), st)
  else if optTruthy purpose && decide (500 < optLen purpose) then
    (.error (.validation dbPurposeMsg), st)
  else
    match dbFindByNameAgent st name agent_type with
    | some r =>
      match addVisitorAnswersF failInsert
          { st with visitors := dbUpdateRow now r.id (r.visit_count + 1) st.visitors }
          r.id answers with
      | (.ok _, st2) =>
        (.ok { id := r.id, name := name, agent_type := agent_type, purpose := purpose,
               visit_time := now, visit_count := r.visit_count + 1, answers := answers }, st2)
      | (.error _, st2) => (.error .storage, st2)
    | none =>
      match addVisitorAnswersF failInsert
          { st with visitors :=
              st.visitors ++ [{ id := freshId, name := name, agent_type := agent_type,
                                purpose := purpose, visit_time := now, visit_count := 1 }] }
          freshId answers with
      | (.ok _, st2) =>
        (.ok { id := freshId, name := name, agent_type := agent_type, purpose := purpose,
               visit_time := now, visit_count := 1, answers := answers }, st2)
      | (.error _, st2) => (.error .storage, st2)

/-- The relational `add_visitor` on the failure-free path, packaged like the
Python function: an exception or the returned dict together with the updated
store. -/
def dbAddVisitor (now : Int) (freshId : Nat) (st : DbState) (name : Str)
    (agent_type purpose : Option Str) (answers : List (Str × Str)) :
    Except DbError (VisitorOut × DbState) :=
  match dbAddVisitorF false now freshId st name agent_type purpose answers with
  | (.ok out, st') => .ok (out, st')
  | (.error e, _) => .error e

/-- Field names declared by the pydantic `VisitorCreate` model
(src/models/visitor.py lines 5-12): the `VisitorBase` fields `name`,
`agent_type`, `purpose`, `visit_count` plus `answers`.  There is no
`feedback` field, so the attribute access `visitor.feedback` raises
`AttributeError`. -/
def visitorCreateFieldNames : List Str :=
  ["name".toList, "agent_type".toList, "purpose".toList, "visit_count".toList,
   "answers".toList]

/-- Outcomes of the `sign_welcome_book` HTTP handler: a 200 response carrying
the visitor and the updated store, a 400 `HTTPException` with a detail
message, or a 500 server error (an `HTTPException(500)` or an unhandled
exception, which FastAPI also answers with status 500). -/
inductive HandlerResult where
  | ok (out : FileRecord) (store : List FileRecord)
  | badRequest (detail : Str)
  | serverError
deriving DecidableEq

/-- Detail messages of the 400 responses in `sign_welcome_book`
(src/api/endpoints/welcome_book.py lines 54-76). -/
def hbNameReq : Str := "Name is required to sign the welcome book".toList

def hbNameLong : Str := "Name is too long (maximum 100 characters)".toList

def hbAgentLong : Str := "Agent type is too long (maximum 500 characters)".toList

def hbPurposeLong : Str := "Purpose is too long (maximum 500 characters)".toList

def hbAnswersBig : Str := "Answers content is too large".toList

/-- The `sign_welcome_book` handler (src/api/endpoints/welcome_book.py
lines 36-92).  The preliminary field checks each answer 400.  The handler
then evaluates `visitor.feedback` (line 79) outside any try block; the
`VisitorCreate` model declares no `feedback` field, so the lookup is modelled
by searching the declared field names — it finds nothing, pydantic raises
`AttributeError`, and FastAPI answers 500.  The remaining lines (the feedback
checks and the guarded `add_visitor` call, which maps a `ValueError` to 400
and any other exception to 500) are modelled for completeness but are
unreachable. -/
def signWelcomeBook (now : Int) (freshId : Nat) (store : List FileRecord)
    (v : VisitorCreate) : HandlerResult :=
  if v.name.isEmpty || (pyStrip v.name).isEmpty then .badRequest hbNameReq
  else if decide (100 < v.name.length) then .badRequest hbNameLong
  else if optTruthy v.agent_type && decide (500 < optLen v.agent_type) then
    .badRequest hbAgentLong
  else if optTruthy v.purpose && decide (500 < optLen v.purpose) then
    .badRequest hbPurposeLong
  else if !v.answers.isEmpty && decide (5000 < strDictLength v.answers) then
    .badRequest hbAnswersBig
  else if (visitorCreateFieldNames.find? (fun f => f == "feedback".toList)).isNone then
    .serverError
  else
    match fileAddVisitor now freshId store v with
    | .ok (out, st) => .ok out st
    | .error (.validation _) => .badRequest "Invalid visitor data".toList
    | .error .rateLimit =>
      .badRequest "Rate limit exceeded. Please wait at least one hour between visits.".toList

/-- Concrete visitor submission used by the concrete theorems below. -/
def adaName : Str := "Ada".toList

def adaV : VisitorCreate := ⟨adaName, none, none, []⟩

def adaRec1 : FileRecord := ⟨1, adaName, none, none, 0, 1, []⟩

def adaRec2 : FileRecord := ⟨2, adaName, none, none, 7200, 2, []⟩

def adaRec3 : FileRecord := ⟨3, adaName, none, none, 14400, 2, []⟩

def qKey : Str := "q".toList

def adaRow1 : DbRow := ⟨1, adaName, none, none, 0, 1⟩

/-- Concrete relational store: one Ada row with one stored answer. -/
def dbStAda : DbState := ⟨[adaRow1], [(1, qKey, "x".toList)]⟩

/-- Identity uniqueness invariant of §3 of the spec: no two rows of the
`visitors` table agree on both name and agent type (`NULL` being its own
bucket). -/
def IdentityUnique (st : DbState) : Prop :=
  st.visitors.Pairwise (fun a b => ¬ (a.name = b.name ∧ a.agent_type = b.agent_type))

/-- Stored record used by the rate-limit witness: same name as `adaV` but a
different agent type, and a visit 30 minutes before the submission. -/
def adaRecRecent : FileRecord := ⟨9, adaName, some "GPT".toList, none, 1800, 1, []⟩

/-- Answer key of 51 characters, one over the 50-character limit. -/
def key51 : Str := List.replicate 51 'a'

def vKey51 : VisitorCreate := ⟨adaName, none, none, [(key51, "v".toList)]⟩

/-- Name of length 101, used in the spec scenario for claim C7. -/
def name101 : Str := List.replicate 101 'a'

def v101 : VisitorCreate := ⟨name101, none, none, []⟩

/-- Name made of 100 ampersands: within the raw 100-character limit, but
escaping expands each character fivefold. -/
def amp100 : Str := List.replicate 100 '&'

def vAmp : VisitorCreate := ⟨amp100, none, none, []⟩

/-- Result and store of the concrete repeat visit against `dbStAda`. -/
def outAda2 : VisitorOut := ⟨1, adaName, none, none, 7200, 2, []⟩

def dbStAda2 : DbState := ⟨[⟨1, adaName, none, none, 7200, 2⟩], [(1, qKey, "x".toList)]⟩

/-- Acceptance predicate on the outcome of the relational `add_visitor`. -/
def dbAccepts (e : Except DbError (VisitorOut × DbState)) : Bool :=
  match e with
  | .ok _ => true
  | .error _ => false

def fileStRecent : List FileRecord := [⟨1, adaName, none, none, 1800, 1, []⟩]

def dbStRecent : DbState := ⟨[⟨1, adaName, none, none, 1800, 1⟩], []⟩

/-- Stored record with visit count 5 for the C10 witness. -/
def storedFive : FileRecord := ⟨7, adaName, none, none, 0, 5, []⟩

theorem mem_stableInsert (le : α → α → Bool) (a x : α) (l : List α) :
    x ∈ stableInsert le a l ↔ x = a ∨ x ∈ l := by
  induction l with
  | nil => simp [stableInsert]
  | cons b bs ih =>
    simp only [stableInsert]
    split
    · simp only [List.mem_cons, ih]
      tauto
    · simp only [List.mem_cons]
      try tauto

theorem mem_stableSort_aux (le : α → α → Bool) (l acc : List α) (x : α) :
    x ∈ l.foldl (fun acc a => stableInsert le a acc) acc ↔ x ∈ acc ∨ x ∈ l := by
  induction l generalizing acc with
  | nil => simp
  | cons b bs ih =>
    simp only [List.foldl_cons, ih, mem_stableInsert, List.mem_cons]
    tauto

theorem mem_stableSort (le : α → α → Bool) (l : List α) (x : α) :
    x ∈ stableSort le l ↔ x ∈ l := by
  simp [stableSort, mem_stableSort_aux]

theorem nameErrorOf_eq_none_iff (v : VisitorCreate) :
    nameErrorOf v = none ↔ v.name ≠ [] ∧ pyStrip v.name ≠ [] ∧ v.name.length ≤ 100 := by
  by_cases he : v.name = [] <;> by_cases hs : pyStrip v.name = [] <;>
    by_cases hl : 100 < v.name.length <;>
      simp [nameErrorOf, maxNameLength, he, hs, hl, List.isEmpty_iff, not_lt] <;>
        omega

theorem agentErrorOf_eq_none_iff (v : VisitorCreate) :
    agentErrorOf v = none ↔ (optTruthy v.agent_type = true → optLen v.agent_type ≤ 500) := by
  by_cases ht : optTruthy v.agent_type = true <;>
    by_cases hl : 500 < optLen v.agent_type <;>
      simp [agentErrorOf, maxFieldLength, ht, hl, not_lt] <;> omega

theorem purposeErrorOf_eq_none_iff (v : VisitorCreate) :
    purposeErrorOf v = none ↔ (optTruthy v.purpose = true → optLen v.purpose ≤ 500) := by
  by_cases ht : optTruthy v.purpose = true <;>
    by_cases hl : 500 < optLen v.purpose <;>
      simp [purposeErrorOf, maxFieldLength, ht, hl, not_lt] <;> omega

theorem answersErrorOf_eq_none_iff (v : VisitorCreate) :
    answersErrorOf v = none ↔ (v.answers ≠ [] → jsonDumpsLength v.answers ≤ 2000) := by
  by_cases he : v.answers = [] <;> by_cases hl : 2000 < jsonDumpsLength v.answers <;>
    simp [answersErrorOf, he, hl, List.isEmpty_iff, not_lt] <;> omega

theorem validate_eq_noErrors_iff (v : VisitorCreate) :
    validateVisitor v = noErrors ↔
      nameErrorOf v = none ∧ agentErrorOf v = none ∧ purposeErrorOf v = none ∧
        answersErrorOf v = none := by
  simp [validateVisitor, noErrors, ValidationErrors.mk.injEq]

theorem noErrors_facts (v : VisitorCreate) (h : validateVisitor v = noErrors) :
    v.name ≠ [] ∧ v.name.length ≤ 100 ∧
      (optTruthy v.agent_type = true → optLen v.agent_type ≤ 500) ∧
      (optTruthy v.purpose = true → optLen v.purpose ≤ 500) := by
  rw [validate_eq_noErrors_iff] at h
  obtain ⟨hn, ha, hp, -⟩ := h
  rw [nameErrorOf_eq_none_iff] at hn
  rw [agentErrorOf_eq_none_iff] at ha
  rw [purposeErrorOf_eq_none_iff] at hp
  exact ⟨hn.1, hn.2.2, ha, hp⟩

theorem rateLimitHit_eq_true {now : Int} {data : List FileRecord} {nm : Str}
    {r : FileRecord} (hr : r ∈ data) (hname : r.name = nm)
    (ht : now - 3600 < r.visit_time) : rateLimitHit now data nm = true := by
  unfold rateLimitHit
  rw [List.any_eq_true]
  exact ⟨r, hr, by simp [hname, ht]⟩

theorem fileAddVisitor_rateLimited {now : Int} {fid : Nat} {data : List FileRecord}
    {v : VisitorCreate} (hval : validateVisitor v = noErrors)
    {r : FileRecord} (hr : r ∈ data) (hname : r.name = sanitizeInput v.name)
    (ht : now - 3600 < r.visit_time) :
    fileAddVisitor now fid data v = .error .rateLimit := by
  rw [fileAddVisitor, if_neg (by simp [hval]), if_pos (rateLimitHit_eq_true hr hname ht)]

theorem fileAddVisitor_ok_elim {now : Int} {fid : Nat} {data : List FileRecord}
    {v : VisitorCreate} {out : FileRecord} {data' : List FileRecord}
    (hok : fileAddVisitor now fid data v = .ok (out, data')) :
    validateVisitor v = noErrors ∧
      rateLimitHit now data (sanitizeInput v.name) = false ∧
      out = fileNewRecord now fid data v ∧
      data' = fileSaveData (data ++ [fileNewRecord now fid data v]) := by
  by_cases hval : validateVisitor v = noErrors
  · by_cases hhit : rateLimitHit now data (sanitizeInput v.name) = true
    · rw [fileAddVisitor, if_neg (by simp [hval]), if_pos hhit] at hok
      exact absurd hok (by simp)
    · rw [Bool.not_eq_true] at hhit
      rw [fileAddVisitor, if_neg (by simp [hval]), if_neg (by simp [hhit])] at hok
      rw [Except.ok.injEq, Prod.mk.injEq] at hok
      exact ⟨hval, hhit, hok.1.symm, hok.2.symm⟩
  · rw [fileAddVisitor, if_pos (by simp [hval])] at hok
    exact absurd hok (by simp)

/-- Claim C3: a submission whose sanitized name matches any stored record
with a visit time inside the trailing hour is rejected with the rate-limit
error — the check is by name alone, the agent types of the record and of the
submission are unconstrained — and, the error being raised before `_save_data`
is ever called, the store is unchanged (errors of `fileAddVisitor` carry no
new store). -/
theorem C3_theorem (now : Int) (fid : Nat) (data : List FileRecord) (v : VisitorCreate)
    (r : FileRecord) (hval : validateVisitor v = noErrors) (hr : r ∈ data)
    (hname : r.name = sanitizeInput v.name) (ht : now - 3600 < r.visit_time) :
    fileAddVisitor now fid data v = .error .rateLimit :=
  fileAddVisitor_rateLimited hval hr hname ht

/-- Witness for C3 at a concrete input: the stored record has agent type
"GPT" while the submission has none, and the submission is still
rate-limited. -/
theorem C3_witness : fileAddVisitor 3600 2 [adaRecRecent] adaV = .error .rateLimit :=
  C3_theorem 3600 2 [adaRecRecent] adaV adaRecRecent (by decide) (by decide) (by decide)
    (by decide)

/-- Counterexample to claim C7: a submission with an answer key of length 51
passes validation and creates a record — the key is silently truncated to 50
characters during sanitization instead of being rejected. -/
theorem C7_counterexample :
    validateVisitor vKey51 = noErrors ∧
    fileAddVisitor 0 1 [] vKey51 =
      .ok (⟨1, adaName, none, none, 0, 1, [(List.replicate 50 'a', "v".toList)]⟩,
           [⟨1, adaName, none, none, 0, 1, [(List.replicate 50 'a', "v".toList)]⟩]) := by
  decide

/-- Claim C7 as amended: `registerVisit` rejects with a validation error
naming the offending field, with no store mutation, exactly when the name is
empty after trimming, the name exceeds 100 characters, the agent type or
purpose exceeds 500 characters, or the answers serialize to more than 2000
characters; an over-50-character answer key is not flagged — such keys are
truncated during sanitization instead. -/
theorem C7_theorem (v : VisitorCreate) :
    (nameErrorOf v ≠ none ↔ v.name = [] ∨ pyStrip v.name = [] ∨ 100 < v.name.length) ∧
    (agentErrorOf v ≠ none ↔ optTruthy v.agent_type = true ∧ 500 < optLen v.agent_type) ∧
    (purposeErrorOf v ≠ none ↔ optTruthy v.purpose = true ∧ 500 < optLen v.purpose) ∧
    (answersErrorOf v ≠ none ↔ v.answers ≠ [] ∧ 2000 < jsonDumpsLength v.answers) ∧
    (validateVisitor v ≠ noErrors →
      ∀ (now : Int) (fid : Nat) (data : List FileRecord),
        fileAddVisitor now fid data v = .error (.validation (validateVisitor v))) := by
  refine ⟨?_, ?_, ?_, ?_, ?_⟩
  · rw [ne_eq, not_congr (nameErrorOf_eq_none_iff v)]
    simp only [not_and_or, not_not, not_le]
    try tauto
  · rw [ne_eq, not_congr (agentErrorOf_eq_none_iff v)]
    push_neg
    try tauto
  · rw [ne_eq, not_congr (purposeErrorOf_eq_none_iff v)]
    push_neg
    try tauto
  · rw [ne_eq, not_congr (answersErrorOf_eq_none_iff v)]
    push_neg
    try tauto
  · intro hne now fid data
    rw [fileAddVisitor, if_pos hne]

/-- Witness for C7: a name of length 101 is rejected with a validation error
and no record is created. -/
theorem C7_witness :
    fileAddVisitor 0 1 [] v101 = .error (.validation (validateVisitor v101)) :=
  (C7_theorem v101).2.2.2.2 (by decide) 0 1 []

/-- Counterexample to claim C8: the valid 100-character name of ampersands is
stored with a sanitized length of 500 characters, not at most 100 — the
sanitizer truncates at `max_field_length` (500), not `max_name_length`. -/
theorem C8_counterexample :
    validateVisitor vAmp = noErrors ∧
    (fileAddVisitor 0 1 [] vAmp).toOption.map (fun p => p.1.name.length) = some 500 := by
  decide

/-- Claim C8 as amended: for every successful submission the stored and
returned name is the HTML-escaped raw name truncated — in that order — to
`max_field_length` = 500 characters, so its length is at most 500 (not 100);
the 100-character ceiling applies to the raw name before sanitization. -/
theorem C8_theorem (now : Int) (fid : Nat) (data : List FileRecord) (v : VisitorCreate)
    (out : FileRecord) (data' : List FileRecord)
    (hok : fileAddVisitor now fid data v = .ok (out, data')) :
    out.name = (htmlEscape v.name).take maxFieldLength ∧
    out.name.length ≤ 500 ∧ v.name.length ≤ 100 := by
  obtain ⟨hval, -, hout, -⟩ := fileAddVisitor_ok_elim hok
  obtain ⟨hne, hlen, -, -⟩ := noErrors_facts v hval
  have hname : out.name = sanitizeInput v.name := by rw [hout]; rfl
  rw [sanitizeInput, if_neg (by simp [List.isEmpty_iff, hne])] at hname
  refine ⟨hname, ?_, hlen⟩
  rw [hname, List.length_take]
  exact le_trans (min_le_left _ _) (by norm_num [maxFieldLength])

/-- Witness for C8 at a concrete successful submission. -/
theorem C8_witness :
    adaRec1.name = (htmlEscape adaV.name).take maxFieldLength ∧
    adaRec1.name.length ≤ 500 ∧ adaV.name.length ≤ 100 :=
  C8_theorem 0 1 [] adaV adaRec1 [adaRec1] (by decide)

theorem addVisitorAnswersF_false_eq (st : DbState) (vid : Nat) (ans : List (Str × Str)) :
    addVisitorAnswersF false st vid ans =
      (.ok (), if ans.isEmpty then st else
        { st with answers := st.answers.filter (fun a => !(a.1 == vid)) ++
            (ans.filterMap processAnswer).map (fun kv => (vid, kv.1, kv.2)) }) := by
  by_cases h : ans.isEmpty = true <;> simp [addVisitorAnswersF, h]

theorem dbFind_mem {st : DbState} {nm : Str} {at? : Option Str} {r : DbRow}
    (h : dbFindByNameAgent st nm at? = some r) : r ∈ st.visitors := by
  unfold dbFindByNameAgent at h
  split at h <;> exact List.mem_of_find?_eq_some h

theorem dbFind_none_not_identity {st : DbState} {nm : Str} {at? : Option Str}
    (hA : at? ≠ some []) (h : dbFindByNameAgent st nm at? = none) :
    ∀ a ∈ st.visitors, ¬ (a.name = nm ∧ a.agent_type = at?) := by
  intro a ha hcon
  unfold dbFindByNameAgent at h
  by_cases ht : optTruthy at? = true
  · rw [if_pos ht, List.find?_eq_none] at h
    exact h a ha (by simp [hcon.1, hcon.2])
  · have hnone : at? = none := by
      cases hat : at? with
      | none => rfl
      | some s =>
        rw [hat] at ht hA
        cases s with
        | nil => exact absurd rfl hA
        | cons c cs => exact absurd (by simp [optTruthy]) ht
    rw [if_neg ht, List.find?_eq_none] at h
    refine h a ha ?_
    simp [hcon.1, hcon.2, hnone]

theorem dbAddVisitor_ok_elim {now : Int} {fid : Nat} {st : DbState} {name : Str}
    {at? pu? : Option Str} {ans : List (Str × Str)} {out : VisitorOut} {st' : DbState}
    (hok : dbAddVisitor now fid st name at? pu? ans = .ok (out, st')) :
    out.visit_time = now ∧ out.name = name ∧ out.agent_type = at? ∧ out.answers = ans ∧
    st'.answers = (if ans.isEmpty then st.answers else
        st.answers.filter (fun a => !(a.1 == out.id)) ++
          (ans.filterMap processAnswer).map (fun kv => (out.id, kv.1, kv.2))) ∧
    ((∃ r, dbFindByNameAgent st name at? = some r ∧ out.id = r.id ∧
        out.visit_count = r.visit_count + 1 ∧
        st'.visitors = dbUpdateRow now r.id (r.visit_count + 1) st.visitors) ∨
     (dbFindByNameAgent st name at? = none ∧ out.id = fid ∧ out.visit_count = 1 ∧
        st'.visitors = st.visitors ++ [⟨fid, name, at?, pu?, now, 1⟩])) := by
  unfold dbAddVisitor dbAddVisitorF at hok
  by_cases h1 : (name.isEmpty || decide (100 < name.length)) = true
  · rw [if_pos h1] at hok
    simp at hok
  rw [if_neg h1] at hok
  by_cases h2 : (optTruthy at? && decide (500 < optLen at?)) = true
  · rw [if_pos h2] at hok
    simp at hok
  rw [if_neg h2] at hok
  by_cases h3 : (optTruthy pu? && decide (500 < optLen pu?)) = true
  · rw [if_pos h3] at hok
    simp at hok
  rw [if_neg h3] at hok
  cases hfind : dbFindByNameAgent st name at? with
  | some r =>
    simp only [hfind, addVisitorAnswersF_false_eq, Except.ok.injEq, Prod.mk.injEq] at hok
    obtain ⟨hout, hst⟩ := hok
    subst hout
    refine ⟨rfl, rfl, rfl, rfl, ?_, .inl ⟨r, rfl, rfl, rfl, ?_⟩⟩
    · rw [← hst]
      by_cases ha : ans.isEmpty = true <;> simp [ha]
    · rw [← hst]
      by_cases ha : ans.isEmpty = true <;> simp [ha]
  | none =>
    simp only [hfind, addVisitorAnswersF_false_eq, Except.ok.injEq, Prod.mk.injEq] at hok
    obtain ⟨hout, hst⟩ := hok
    subst hout
    refine ⟨rfl, rfl, rfl, rfl, ?_, .inr ⟨rfl, rfl, rfl, ?_⟩⟩
    · rw [← hst]
      by_cases ha : ans.isEmpty = true <;> simp [ha]
    · rw [← hst]
      by_cases ha : ans.isEmpty = true <;> simp [ha]

/-- Counterexample to claim C1: two successful submissions of the same
identity (one outside the other's rate-limit window) leave the file-backed
store with two records of that identity — `add_visitor` appends a freshly
identified record instead of mutating the existing one in place. -/
theorem C1_counterexample :
    fileAddVisitor 0 1 [] adaV = .ok (adaRec1, [adaRec1]) ∧
    fileAddVisitor 7200 2 [adaRec1] adaV = .ok (adaRec2, [adaRec1, adaRec2]) ∧
    adaRec2.name = adaRec1.name ∧ adaRec2.agent_type = adaRec1.agent_type ∧
    adaRec2.id ≠ adaRec1.id := by
  decide

/-- Claim C1 as amended: the relational `add_visitor` preserves the
one-record-per-identity invariant (for an agent type that is absent or
non-empty) and, for a repeat identity, reuses the stored id and mutates the
row in place — the row set keeps the same ids and size.  The file-backed
variant instead appends a new record with a fresh id on every accepted
submission. -/
theorem C1_theorem (now : Int) (fid : Nat) (st : DbState) (name : Str)
    (at? pu? : Option Str) (ans : List (Str × Str)) (out : VisitorOut) (st' : DbState)
    (hok : dbAddVisitor now fid st name at? pu? ans = .ok (out, st'))
    (hA : at? ≠ some []) (hinv : IdentityUnique st) :
    IdentityUnique st' ∧
    (∀ r, dbFindByNameAgent st name at? = some r →
      out.id = r.id ∧ st'.visitors.map (fun q => q.id) = st.visitors.map (fun q => q.id)) := by
  obtain ⟨-, -, -, -, -, h⟩ := dbAddVisitor_ok_elim hok
  rcases h with ⟨r, hfind, hid, hvc, hvis⟩ | ⟨hfind, hid, hvc, hvis⟩
  · have hpres : ∀ q : DbRow,
        ((if q.id = r.id then { q with visit_time := now, visit_count := r.visit_count + 1 }
          else q) : DbRow).name = q.name ∧
        ((if q.id = r.id then { q with visit_time := now, visit_count := r.visit_count + 1 }
          else q) : DbRow).agent_type = q.agent_type ∧
        ((if q.id = r.id then { q with visit_time := now, visit_count := r.visit_count + 1 }
          else q) : DbRow).id = q.id := by
      intro q
      by_cases hq : q.id = r.id <;> simp [hq]
    constructor
    · unfold IdentityUnique at hinv ⊢
      rw [hvis]
      unfold dbUpdateRow
      rw [List.pairwise_map]
      refine hinv.imp ?_
      intro a b hab hcon
      refine hab ⟨?_, ?_⟩
      · rw [← (hpres a).1, ← (hpres b).1]
        exact hcon.1
      · rw [← (hpres a).2.1, ← (hpres b).2.1]
        exact hcon.2
    · intro r' hr'
      rw [hfind] at hr'
      injection hr' with hrr
      subst hrr
      refine ⟨hid, ?_⟩
      rw [hvis]
      unfold dbUpdateRow
      rw [List.map_map]
      refine List.map_congr_left ?_
      intro q hq
      exact (hpres q).2.2
  · constructor
    · unfold IdentityUnique at hinv ⊢
      rw [hvis, List.pairwise_append]
      refine ⟨hinv, List.pairwise_singleton _ _, ?_⟩
      intro a ha b hb
      rw [List.mem_singleton] at hb
      subst hb
      intro hcon
      exact dbFind_none_not_identity hA hfind a ha ⟨hcon.1, hcon.2⟩
    · intro r' hr'
      rw [hfind] at hr'
      exact absurd hr' (by simp)

/-- Witness for C1 at a concrete repeat submission against `dbStAda`. -/
theorem C1_witness :
    IdentityUnique dbStAda2 ∧ outAda2.id = adaRow1.id ∧
    dbStAda2.visitors.map (fun q => q.id) = dbStAda.visitors.map (fun q => q.id) := by
  have h := C1_theorem 7200 5 dbStAda adaName none none [] outAda2 dbStAda2 (by decide)
    (by decide) (by simp [IdentityUnique, dbStAda])
  exact ⟨h.1, (h.2 adaRow1 (by decide)).1, (h.2 adaRow1 (by decide)).2⟩

/-- Counterexample to claim C2: three successful submissions of the same
identity, each outside the previous one's rate-limit window, return visit
counts 1, 2 and 2 — the third accepted submission does not report 3, because
the lookup always finds the first (oldest) stored record, whose count stays
1. -/
theorem C2_counterexample :
    fileAddVisitor 0 1 [] adaV = .ok (adaRec1, [adaRec1]) ∧
    fileAddVisitor 7200 2 [adaRec1] adaV = .ok (adaRec2, [adaRec1, adaRec2]) ∧
    fileAddVisitor 14400 3 [adaRec1, adaRec2] adaV =
      .ok (adaRec3, [adaRec1, adaRec2, adaRec3]) ∧
    adaRec3.visit_count = 2 := by
  decide

/-- Claim C2 as amended: in the relational variant a successful repeat
submission returns a visit count exactly one greater than the found row's
count, reuses its id, and stores that incremented count (`dbUpdateRow`
bumps exactly the matched row), so there the count equals the number of
accepted submissions; in the file-backed variant the returned count is one
more than the first stored record of the identity and stays at 2 from the
second accepted submission on. -/
theorem C2_theorem (now : Int) (fid : Nat) (st : DbState) (name : Str)
    (at? pu? : Option Str) (ans : List (Str × Str)) (out : VisitorOut) (st' : DbState)
    (r : DbRow) (hok : dbAddVisitor now fid st name at? pu? ans = .ok (out, st'))
    (hfind : dbFindByNameAgent st name at? = some r) :
    out.visit_count = r.visit_count + 1 ∧ out.id = r.id ∧
    st'.visitors = dbUpdateRow now r.id (r.visit_count + 1) st.visitors := by
  obtain ⟨-, -, -, -, -, h⟩ := dbAddVisitor_ok_elim hok
  rcases h with ⟨r2, hfind2, hid, hvc, hvis⟩ | ⟨hfind2, -, -, -⟩
  · rw [hfind] at hfind2
    injection hfind2 with hrr
    subst hrr
    exact ⟨hvc, hid, hvis⟩
  · rw [hfind] at hfind2
    exact absurd hfind2 (by simp)

/-- Witness for C2 at the concrete repeat submission against `dbStAda`. -/
theorem C2_witness :
    outAda2.visit_count = adaRow1.visit_count + 1 ∧ outAda2.id = adaRow1.id ∧
    dbStAda2.visitors = dbUpdateRow 7200 adaRow1.id (adaRow1.visit_count + 1)
      dbStAda.visitors :=
  C2_theorem 7200 5 dbStAda adaName none none [] outAda2 dbStAda2 adaRow1 (by decide)
    (by decide)

theorem addVisitorAnswersF_true_eq (st : DbState) (vid : Nat) (ans : List (Str × Str))
    (h : ans ≠ []) :
    addVisitorAnswersF true st vid ans =
      (.error (), { st with answers := st.answers.filter (fun a => !(a.1 == vid)) }) := by
  unfold addVisitorAnswersF
  rw [if_neg (by simp [List.isEmpty_iff, h])]
  rfl

theorem dbAddVisitor_ok_of_valid (now : Int) (fid : Nat) (st : DbState) (name : Str)
    (at? pu? : Option Str) (ans : List (Str × Str))
    (h1 : name ≠ []) (h2 : name.length ≤ 100)
    (h3 : optTruthy at? = true → optLen at? ≤ 500)
    (h4 : optTruthy pu? = true → optLen pu? ≤ 500) :
    dbAccepts (dbAddVisitor now fid st name at? pu? ans) = true := by
  have hb1 : (name.isEmpty || decide (100 < name.length)) = false := by
    simp [List.isEmpty_iff, h1, not_lt.2 h2]
  have hb2 : (optTruthy at? && decide (500 < optLen at?)) = false := by
    by_cases ht : optTruthy at? = true
    · simp [ht, not_lt.2 (h3 ht)]
    · rw [Bool.not_eq_true] at ht
      simp [ht]
  have hb3 : (optTruthy pu? && decide (500 < optLen pu?)) = false := by
    by_cases ht : optTruthy pu? = true
    · simp [ht, not_lt.2 (h4 ht)]
    · rw [Bool.not_eq_true] at ht
      simp [ht]
  unfold dbAddVisitor dbAddVisitorF
  rw [if_neg (by simp [hb1]), if_neg (by simp [hb2]), if_neg (by simp [hb3])]
  cases hfind : dbFindByNameAgent st name at? <;>
    simp [addVisitorAnswersF_false_eq, dbAccepts]

/-- Counterexample to claim C4: on stores holding the same single record —
Ada, visited 30 minutes ago — the same fresh submission for Ada is rejected
as rate-limited by the file-backed variant but accepted by the relational
variant, which has no rate-limit check at all; the stores also end up
disagreeing (two records versus one updated row). -/
theorem C4_counterexample :
    fileAddVisitor 3600 2 fileStRecent adaV = .error .rateLimit ∧
    dbAddVisitor 3600 2 dbStRecent adaName none none [] =
      .ok (⟨1, adaName, none, none, 3600, 2, []⟩,
           ⟨[⟨1, adaName, none, none, 3600, 2⟩], []⟩) := by
  decide

/-- Claim C4 as amended: the two variants do not behave identically.  For
every submission that passes the shared length validation while some record
with its sanitized name sits within the trailing hour, the file-backed
`add_visitor` rejects it as rate-limited while the relational `add_visitor`
accepts it (it performs no rate-limit check). -/
theorem C4_theorem (now : Int) (fid : Nat) (data : List FileRecord) (st : DbState)
    (v : VisitorCreate) (r : FileRecord)
    (hval : validateVisitor v = noErrors) (hr : r ∈ data)
    (hname : r.name = sanitizeInput v.name) (ht : now - 3600 < r.visit_time) :
    fileAddVisitor now fid data v = .error .rateLimit ∧
    dbAccepts (dbAddVisitor now fid st v.name v.agent_type v.purpose v.answers) = true := by
  obtain ⟨h1, h2, h3, h4⟩ := noErrors_facts v hval
  exact ⟨fileAddVisitor_rateLimited hval hr hname ht,
         dbAddVisitor_ok_of_valid now fid st v.name v.agent_type v.purpose v.answers
           h1 h2 h3 h4⟩

/-- Witness for C4 at the concrete stores of `C4_counterexample`. -/
theorem C4_witness :
    fileAddVisitor 3600 2 fileStRecent adaV = .error .rateLimit ∧
    dbAccepts (dbAddVisitor 3600 2 dbStRecent adaV.name adaV.agent_type adaV.purpose
      adaV.answers) = true :=
  C4_theorem 3600 2 fileStRecent dbStRecent adaV ⟨1, adaName, none, none, 1800, 1, []⟩
    (by decide) (by decide) (by decide) (by decide)

/-- Counterexample to claim C5: against `dbStAda` (Ada, count 1, stored
answer q/x), a repeat submission with answer q/y whose answers insert fails
raises a storage error — the submission fails — yet the store is changed:
the visitor row is already committed with count 2 and time 7200, and the old
answers were already deleted by the committed DELETE. -/
theorem C5_counterexample :
    dbAddVisitorF true 7200 5 dbStAda adaName none none [(qKey, "y".toList)] =
      (.error .storage, ⟨[⟨1, adaName, none, none, 7200, 2⟩], []⟩) ∧
    (⟨[⟨1, adaName, none, none, 7200, 2⟩], []⟩ : DbState) ≠ dbStAda := by
  decide

/-- Claim C5 as amended: persistence of a visit is not atomic in the
relational variant.  For every submission with answers that passes
validation, if the answers insert transaction fails then the whole
submission fails with a storage error, but the store is not left unchanged:
the visitor row update (or insert) has already been committed, and the
identity's previously stored answers have already been deleted by the
separately committed DELETE. -/
theorem C5_theorem (now : Int) (fid : Nat) (st : DbState) (name : Str)
    (at? pu? : Option Str) (ans : List (Str × Str)) (hans : ans ≠ [])
    (h1 : name ≠ []) (h2 : name.length ≤ 100)
    (h3 : optTruthy at? = true → optLen at? ≤ 500)
    (h4 : optTruthy pu? = true → optLen pu? ≤ 500) :
    (dbAddVisitorF true now fid st name at? pu? ans).1 = .error .storage ∧
    (∀ r, dbFindByNameAgent st name at? = some r →
      (dbAddVisitorF true now fid st name at? pu? ans).2 =
        ⟨dbUpdateRow now r.id (r.visit_count + 1) st.visitors,
         st.answers.filter (fun a => !(a.1 == r.id))⟩) ∧
    (dbFindByNameAgent st name at? = none →
      (dbAddVisitorF true now fid st name at? pu? ans).2 =
        ⟨st.visitors ++ [⟨fid, name, at?, pu?, now, 1⟩],
         st.answers.filter (fun a => !(a.1 == fid))⟩) := by
  have hb1 : (name.isEmpty || decide (100 < name.length)) = false := by
    simp [List.isEmpty_iff, h1, not_lt.2 h2]
  have hb2 : (optTruthy at? && decide (500 < optLen at?)) = false := by
    by_cases ht : optTruthy at? = true
    · simp [ht, not_lt.2 (h3 ht)]
    · rw [Bool.not_eq_true] at ht
      simp [ht]
  have hb3 : (optTruthy pu? && decide (500 < optLen pu?)) = false := by
    by_cases ht : optTruthy pu? = true
    · simp [ht, not_lt.2 (h4 ht)]
    · rw [Bool.not_eq_true] at ht
      simp [ht]
  unfold dbAddVisitorF
  rw [if_neg (by simp [hb1]), if_neg (by simp [hb2]), if_neg (by simp [hb3])]
  cases hfind : dbFindByNameAgent st name at? with
  | some r =>
    simp only [addVisitorAnswersF_true_eq _ _ _ hans]
    refine ⟨trivial, ?_, ?_⟩
    · intro r' hr'
      injection hr' with hrr
      subst hrr
      rfl
    · intro hn
      exact absurd hn (by simp)
  | none =>
    simp only [addVisitorAnswersF_true_eq _ _ _ hans]
    refine ⟨trivial, ?_, fun _ => ?_⟩
    · intro r' hr'
      exact absurd hr' (by simp)
    · trivial

/-- Witness for C5 at the concrete repeat submission of `C5_counterexample`. -/
theorem C5_witness :
    (dbAddVisitorF true 7200 5 dbStAda adaName none none [(qKey, "y".toList)]).1 =
      .error .storage ∧
    (dbAddVisitorF true 7200 5 dbStAda adaName none none [(qKey, "y".toList)]).2 =
      ⟨dbUpdateRow 7200 adaRow1.id (adaRow1.visit_count + 1) dbStAda.visitors,
       dbStAda.answers.filter (fun a => !(a.1 == adaRow1.id))⟩ := by
  have h := C5_theorem 7200 5 dbStAda adaName none none [(qKey, "y".toList)] (by decide)
    (by decide) (by decide) (by decide) (by decide)
  exact ⟨h.1, h.2.1 adaRow1 (by decide)⟩

/-- Counterexample to claim C6: a successful repeat submission for Ada that
supplies no answers leaves the previously stored answer row in place — the
stored answer set is not emptied. -/
theorem C6_counterexample :
    dbAddVisitor 7200 5 dbStAda adaName none none [] = .ok (outAda2, dbStAda2) ∧
    dbStAda2.answers = [(1, qKey, "x".toList)] ∧ dbStAda2.answers ≠ [] := by
  decide

/-- Claim C6 as amended: after a successful relational `add_visitor`, when a
non-empty answers map is supplied, the answer rows stored under the resulting
visitor id are exactly the processed submitted answers (falsy and
over-50-character keys skipped, values truncated to 500) — the previous set
is fully superseded; but when no answers are supplied, the previously stored
answers are retained unchanged, not emptied. -/
theorem C6_theorem (now : Int) (fid : Nat) (st : DbState) (name : Str)
    (at? pu? : Option Str) (ans : List (Str × Str)) (out : VisitorOut) (st' : DbState)
    (hok : dbAddVisitor now fid st name at? pu? ans = .ok (out, st')) :
    (ans = [] → st'.answers = st.answers) ∧
    (ans ≠ [] → st'.answers.filter (fun a => a.1 == out.id) =
        (ans.filterMap processAnswer).map (fun kv => (out.id, kv.1, kv.2))) := by
  obtain ⟨-, -, -, -, hans, -⟩ := dbAddVisitor_ok_elim hok
  constructor
  · intro h
    rw [hans, if_pos (by simp [h])]
  · intro h
    rw [hans, if_neg (by simp [List.isEmpty_iff, h])]
    rw [List.filter_append]
    have hnil : (st.answers.filter (fun a => !(a.1 == out.id))).filter
        (fun a => a.1 == out.id) = [] := by
      rw [List.filter_eq_nil_iff]
      intro a ha
      have hmem := (List.mem_filter.1 ha).2
      simp at hmem ⊢
      exact hmem
    have hall : ((ans.filterMap processAnswer).map (fun kv => (out.id, kv.1, kv.2))).filter
        (fun a => a.1 == out.id) =
        (ans.filterMap processAnswer).map (fun kv => (out.id, kv.1, kv.2)) := by
      rw [List.filter_eq_self]
      intro a ha
      obtain ⟨kv, -, rfl⟩ := List.mem_map.1 ha
      simp
    rw [hnil, hall, List.nil_append]

/-- Witness for C6 at the concrete no-answers repeat submission of
`C6_counterexample`. -/
theorem C6_witness : dbStAda2.answers = dbStAda.answers :=
  (C6_theorem 7200 5 dbStAda adaName none none [] outAda2 dbStAda2 (by decide)).1 rfl

/-- Claim C9: the POST handler never registers a visit — no input yields the
200 outcome — and every request body that clears the preliminary field checks
(no 400 outcome) is answered with a server error, because line 79 evaluates
`visitor.feedback`, an attribute the `VisitorCreate` model does not declare,
raising `AttributeError` outside the try block and before `add_visitor` is
called. -/
theorem C9_theorem (now : Int) (fid : Nat) (store : List FileRecord) (v : VisitorCreate) :
    (∀ out st, signWelcomeBook now fid store v ≠ .ok out st) ∧
    ((∀ d, signWelcomeBook now fid store v ≠ .badRequest d) →
      signWelcomeBook now fid store v = .serverError) := by
  have hfeed : (visitorCreateFieldNames.find? (fun f => f == "feedback".toList)).isNone
      = true := by decide
  unfold signWelcomeBook
  rw [if_pos hfeed]
  split_ifs with h1 h2 h3 h4 h5
  · exact ⟨fun out st => by simp, fun h => absurd rfl (h _)⟩
  · exact ⟨fun out st => by simp, fun h => absurd rfl (h _)⟩
  · exact ⟨fun out st => by simp, fun h => absurd rfl (h _)⟩
  · exact ⟨fun out st => by simp, fun h => absurd rfl (h _)⟩
  · exact ⟨fun out st => by simp, fun h => absurd rfl (h _)⟩
  · exact ⟨fun out st => by simp, fun _ => rfl⟩

/-- Witness for C9: a well-formed submission is answered with the server
error. -/
theorem C9_witness : signWelcomeBook 0 1 [] adaV = .serverError :=
  (C9_theorem 0 1 [] adaV).2 (by
    intro d h
    rw [show signWelcomeBook 0 1 [] adaV = .serverError from by decide] at h
    exact absurd h (by simp))

/-- Claim C10: every visitor returned by the file-backed `get_visitors`
reports the model default visit count 1, whatever count is stored in its
record, because the `Visitor` constructor call omits `visit_count`. -/
theorem C10_theorem (limit : Int) (data : List FileRecord) (v : VisitorOut)
    (hv : v ∈ fileGetVisitors limit data) : v.visit_count = 1 := by
  simp only [fileGetVisitors] at hv
  have h1 := List.take_subset _ _ hv
  rw [mem_stableSort] at h1
  obtain ⟨r, -, rfl⟩ := List.mem_map.1 h1
  rfl

/-- Witness for C10: the listed visitor built from a record with stored count
5 reports count 1. -/
theorem C10_witness : (⟨7, adaName, none, none, 0, 1, []⟩ : VisitorOut).visit_count = 1 :=
  C10_theorem 10 [storedFive] _ (by decide)
